import Mathlib

/-!
Verification of the text summarization tool.

The repository ships the interactive entry point (src/main.py); the summarization
core it imports (TextSummarizer, calculate_text_metrics, extract_keywords, the
model registry) is described by the specification. Definitions below marked
Modelled from the spec embed that core from the specification text; the
definition generateSummaryClick embeds the Generate Summary click handler of
src/main.py. Texts are sequences of characters, summaries are produced by an
injectable backend function, and rational numbers stand for the float ratios.
-/

namespace TextSummarizer

/-- A text is a sequence of characters. -/
abbrev Text := List Char

/-- Whitespace test used for stripping and for sentence segmentation. -/
def isWS (c : Char) : Bool := c.isWhitespace

/-- Strip of leading and trailing whitespace, as Python str.strip applied by the
entry point and by input validation. -/
def stripChars (cs : Text) : Text :=
  ((cs.dropWhile isWS).reverse.dropWhile isWS).reverse

/-- A sentence-terminal character: period, exclamation mark or question mark. -/
def isTerminal (c : Char) : Bool := c = '.' || c = '!' || c = '?'

/-- True when the fragment holds at least one non-whitespace character. -/
def hasContent (cs : Text) : Bool := cs.any (fun c => !(isWS c))

/-- Modelled from the spec: sentence segmentation (section 4.5) splits after
terminal punctuation followed by whitespace or end of text; a trailing fragment
with content counts as one more sentence. The second argument accumulates the
current fragment in reverse. -/
def splitSentencesAux : Text → Text → List Text
  | [], acc => if hasContent acc then [acc.reverse] else []
  | [c], acc =>
      if isTerminal c then [(c :: acc).reverse]
      else if hasContent (c :: acc) then [(c :: acc).reverse] else []
  | c :: d :: rest, acc =>
      if isTerminal c && isWS d then
        (c :: acc).reverse :: splitSentencesAux (d :: rest) []
      else splitSentencesAux (d :: rest) (c :: acc)

/-- The sentences of a text. -/
def splitSentences (cs : Text) : List Text := splitSentencesAux cs []

/-- Modelled from the spec: words are maximal runs of alphanumeric characters
(section 4.5). The second argument accumulates the current run in reverse. -/
def wordsAux : Text → Text → List Text
  | [], acc => if acc.isEmpty then [] else [acc.reverse]
  | c :: rest, acc =>
      if c.isAlphanum then wordsAux rest (c :: acc)
      else if acc.isEmpty then wordsAux rest []
      else acc.reverse :: wordsAux rest []

/-- The words of a text. -/
def wordsOf (cs : Text) : List Text := wordsAux cs []

/-- Case folding for case-insensitive uniqueness counting. -/
def lowerWord (w : Text) : Text := w.map Char.toLower

/-- The result shape of the text-metrics computation (section 3). -/
structure TextMetricsResult where
  word_count : Nat
  sentence_count : Nat
  unique_words : Nat
  avg_sentence_length : ℚ
  lexical_diversity : ℚ
  deriving DecidableEq

/-- Modelled from the spec: calculate_text_metrics (imported by src/main.py from
the utils module, exposed as compute_text_metrics) computes word, sentence and
case-insensitive unique word counts, with explicit zero guards on the two
ratios so that division by zero never raises (section 4.5). -/
def calculate_text_metrics (cs : Text) : TextMetricsResult :=
  let ws := wordsOf cs
  let wc := ws.length
  let sc := (splitSentences cs).length
  let uw := ((ws.map lowerWord).dedup).length
  ⟨wc, sc, uw,
    if sc = 0 then 0 else (wc : ℚ) / (sc : ℚ),
    if wc = 0 then 0 else (uw : ℚ) / (wc : ℚ)⟩

/-- Modelled from the spec: the qualifying terms of keyword extraction are the
lowercased word runs that are not stopwords; the stopword list is a pluggable
policy (section 9), so it is a parameter here. -/
def qualifyingTerms (stop : List Text) (cs : Text) : List Text :=
  ((wordsOf cs).map lowerWord).filter (fun w => decide (w ∉ stop))

/-- Distinct qualifying terms in first-occurrence order, each paired with its
frequency among the qualifying terms. -/
def keywordCandidates (stop : List Text) (cs : Text) : List (Text × Nat) :=
  let toks := qualifyingTerms stop cs
  toks.dedup.map (fun t => (t, toks.count t))

/-- Stable insertion for the frequency ranking: a term goes before the first
term that is not strictly more frequent, so equal frequencies keep
first-occurrence order. -/
def insertRanked (p : Text × Nat) : List (Text × Nat) → List (Text × Nat)
  | [] => [p]
  | q :: rest => if q.2 ≤ p.2 then p :: q :: rest else q :: insertRanked p rest

/-- Insertion sort by descending frequency, stable on ties. -/
def rankSort : List (Text × Nat) → List (Text × Nat)
  | [] => []
  | p :: rest => insertRanked p (rankSort rest)

/-- Modelled from the spec: extract_keywords (imported by src/main.py, exposed
as top_keywords) ranks qualifying terms by frequency, ties broken by first
occurrence, and returns at most k of them (section 4.6). -/
def extract_keywords (stop : List Text) (cs : Text) (k : Nat) : List Text :=
  ((rankSort (keywordCandidates stop cs)).map Prod.fst).take k

/-- Generation parameters supplied by the caller (section 3). -/
structure GenerationParameters where
  max_length : Nat
  min_length : Nat
  num_beams : Nat
  do_sample : Bool
  deriving DecidableEq

/-- The typed failures of the pipeline that the modelled core can produce
(section 7). -/
inductive SummError where
  | EmptyInput
  | InvalidParameters
  | TextTooLong
  deriving DecidableEq

/-- The human-readable error string the facade surfaces for each typed
failure. -/
def errorMessage : SummError → String
  | .EmptyInput => "Input text is empty"
  | .InvalidParameters => "Invalid generation parameters"
  | .TextTooLong => "Text exceeds the maximum summarization recursion depth"

/-- Metadata of a successful summarization (section 3). The chunks_processed
field is an Option: it is present exactly when it holds some value. -/
structure Metadata where
  original_length : Nat
  summary_length : Nat
  compression_ratio : ℚ
  model_used : String
  chunks_processed : Option Nat
  deriving DecidableEq

/-- The tagged outcome returned to callers (section 3): fields that are present
iff success holds are Options. -/
structure SummaryResult where
  success : Bool
  summary : Option Text
  error : Option String
  metadata : Option Metadata
  deriving DecidableEq

/-- The injectable inference backend: one bounded-length generation call on one
chunk (section 6). -/
abbrev Backend := Text → GenerationParameters → Text

/-- Modelled from the spec: greedy packing of the sentences into chunks whose
length stays at or below the model input limit (section 4.3 step 2); a single
sentence longer than the limit is kept as its own chunk. The second list is the
chunk under construction. -/
def packChunks (limit : Nat) : List Text → Text → List Text
  | [], cur => if cur.isEmpty then [] else [cur]
  | s :: rest, cur =>
      if cur.isEmpty then packChunks limit rest s
      else if cur.length + s.length ≤ limit then packChunks limit rest (cur ++ s)
      else cur :: packChunks limit rest s

/-- Per-chunk summaries joined in chunk order, separated by a single space
(section 4.3 step 4). -/
def joinWithSpace : List Text → Text
  | [] => []
  | [t] => t
  | t :: u :: rest => t ++ ' ' :: joinWithSpace (u :: rest)

/-- Modelled from the spec: the chunking orchestrator (section 4.3). A text
fitting the limit is summarized by one backend call; otherwise the text is
split into sentence chunks, each chunk is summarized in order, and the joined
partial summaries are returned when they fit, or recursed on otherwise. The
first Nat argument is the enforced maximum recursion depth: at depth zero an
oversized text fails with TextTooLong. The result pairs the outcome (final
summary and leaf chunk count) with the number of backend calls made. -/
def orchestrate (b : Backend) (limit : Nat) (p : GenerationParameters) :
    Nat → Text → Except SummError (Text × Nat) × Nat
  | 0, text =>
      if text.length ≤ limit then (.ok (b text p, 1), 1)
      else (.error .TextTooLong, 0)
  | fuel + 1, text =>
      if text.length ≤ limit then (.ok (b text p, 1), 1)
      else
        let chunks := packChunks limit (splitSentences text) []
        let combined := joinWithSpace (chunks.map (fun c => b c p))
        if combined.length ≤ limit then (.ok (combined, chunks.length), chunks.length)
        else
          match orchestrate b limit p fuel combined with
          | (.error e, m) => (.error e, chunks.length + m)
          | (.ok (s, _), m) => (.ok (s, chunks.length), chunks.length + m)

/-- Modelled from the spec: the summarize facade (section 4.4). It validates
that the text is non-empty after stripping, then that the parameters satisfy
min_length at most max_length, then runs the orchestrator with the active
model; every typed failure becomes a failure result with a descriptive error
string. On success the metadata holds the character counts, their ratio, the
model identifier, and the leaf chunk count exactly when more than one chunk was
needed. The second component counts backend invocations of the call. -/
def summarize_text (b : Backend) (limit maxDepth : Nat) (model : String)
    (text : Text) (p : GenerationParameters) : SummaryResult × Nat :=
  if stripChars text = [] then
    (⟨false, none, some (errorMessage .EmptyInput), none⟩, 0)
  else if p.max_length < p.min_length then
    (⟨false, none, some (errorMessage .InvalidParameters), none⟩, 0)
  else
    match orchestrate b limit p maxDepth text with
    | (.error e, calls) => (⟨false, none, some (errorMessage e), none⟩, calls)
    | (.ok (s, n), calls) =>
        (⟨true, some s, none,
          some ⟨text.length, s.length, (s.length : ℚ) / (text.length : ℚ), model,
            if 1 < n then some n else none⟩⟩, calls)

/-- Failures of a model switch (section 4.1). -/
inductive SwitchError where
  | UnknownModel
  | LoadError
  deriving DecidableEq

/-- The model registry: the registered identifiers and the active one
(section 4.1). -/
structure ModelRegistry where
  models : List String
  active : String
  deriving DecidableEq

/-- The active model identifier. -/
def active_model (r : ModelRegistry) : String := r.active

/-- Modelled from the spec: switch_model (section 4.1) fails with UnknownModel
when the identifier is not registered, fails with LoadError when the backend
cannot materialize the model, and on failure leaves the previously active model
active. The canLoad parameter stands for the injectable load step. -/
def switch_model (canLoad : String → Bool) (r : ModelRegistry) (ident : String) :
    Except SwitchError Unit × ModelRegistry :=
  if ident ∈ r.models then
    if canLoad ident then (.ok (), ⟨r.models, ident⟩)
    else (.error .LoadError, r)
  else (.error .UnknownModel, r)

/-- What the Generate Summary click handler does with the entered text. -/
inductive UIOutcome where
  | summarizeCall (text : Text)
  | warnEmptyInput
  deriving DecidableEq

/-- Embedding of the Generate Summary click handler of src/main.py lines 216
to 227: when the entered text is non-empty after stripping, summarize_text is
invoked on it; otherwise a warning is shown and no call is made. -/
def generateSummaryClick (input_text : Text) : UIOutcome :=
  if stripChars input_text ≠ [] then .summarizeCall input_text
  else .warnEmptyInput

/-- A text fitting the limit is summarized by a single backend call at any
remaining depth. -/
theorem orchestrate_fits (b : Backend) (limit : Nat) (p : GenerationParameters)
    (fuel : Nat) (text : Text) (h : text.length ≤ limit) :
    orchestrate b limit p fuel text = (.ok (b text p, 1), 1) := by
  cases fuel <;> simp [orchestrate, h]

/-- Every failure the orchestrator produces is TextTooLong. -/
theorem orchestrate_error_eq (b : Backend) (limit : Nat) (p : GenerationParameters) :
    ∀ (fuel : Nat) (text : Text) (e : SummError),
      (orchestrate b limit p fuel text).1 = .error e → e = .TextTooLong := by
  intro fuel
  induction fuel with
  | zero =>
      intro text e h
      simp only [orchestrate] at h
      split at h
      · exact Except.noConfusion h
      · exact (Except.error.inj h).symm
  | succ fuel ih =>
      intro text e h
      simp only [orchestrate] at h
      split at h
      · exact Except.noConfusion h
      · split at h
        · exact Except.noConfusion h
        · split at h
          · rename_i e1 m heq
            have h2 : e1 = .TextTooLong := ih _ e1 (congrArg Prod.fst heq)
            exact (Except.error.inj h).symm.trans h2
          · rename_i s m heq
            exact Except.noConfusion h

/-- C1: for every input text and parameters, the result of the summarize facade
has the summary field present iff success is true, the error field present iff
success is false, and the metadata field present iff success is true. -/
theorem C1_result_shape (b : Backend) (limit d : Nat) (model : String)
    (text : Text) (p : GenerationParameters) :
    ((summarize_text b limit d model text p).1.summary.isSome
      ↔ (summarize_text b limit d model text p).1.success = true) ∧
    ((summarize_text b limit d model text p).1.error.isSome
      ↔ (summarize_text b limit d model text p).1.success = false) ∧
    ((summarize_text b limit d model text p).1.metadata.isSome
      ↔ (summarize_text b limit d model text p).1.success = true) := by
  unfold summarize_text
  split
  · simp
  · split
    · simp
    · split <;> simp

/-- C2: for every text that is empty after stripping whitespace, the summarize
facade returns a failure with a populated error field and performs zero
backend invocations. -/
theorem C2_empty_fails (b : Backend) (limit d : Nat) (model : String)
    (text : Text) (p : GenerationParameters) (h : stripChars text = []) :
    summarize_text b limit d model text p =
      (⟨false, none, some (errorMessage .EmptyInput), none⟩, 0) := by
  unfold summarize_text
  rw [if_pos h]

/-- C2 witness: the concrete whitespace-only input fails with zero backend
calls. -/
theorem C2_empty_fails_witness :
    summarize_text (fun t _ => t.take 5) 50 3 "default-model" "   ".data
        ⟨130, 30, 4, false⟩ =
      (⟨false, none, some (errorMessage .EmptyInput), none⟩, 0) :=
  C2_empty_fails (fun t _ => t.take 5) 50 3 "default-model" "   ".data
    ⟨130, 30, 4, false⟩ (by decide)

/-- C3: for every non-empty text fitting the model limit, with parameters
satisfying the invariant, the facade succeeds in one chunk: the metadata omits
chunks_processed and its compression ratio is summary length over original
length. -/
theorem C3_single_chunk_success (b : Backend) (limit d : Nat) (model : String)
    (text : Text) (p : GenerationParameters)
    (hne : stripChars text ≠ []) (hp : p.min_length ≤ p.max_length)
    (hfit : text.length ≤ limit) :
    summarize_text b limit d model text p =
      (⟨true, some (b text p), none,
        some ⟨text.length, (b text p).length,
          ((b text p).length : ℚ) / (text.length : ℚ), model, none⟩⟩, 1) := by
  unfold summarize_text
  rw [if_neg hne, if_neg (Nat.not_lt.mpr hp), orchestrate_fits b limit p d text hfit]
  simp

/-- C3 witness: a concrete short text succeeds with chunks_processed absent. -/
theorem C3_single_chunk_success_witness :
    summarize_text (fun t _ => t.take 3) 100 3 "bart" "Hello there.".data
        ⟨130, 30, 4, false⟩ =
      (⟨true, some ("Hello there.".data.take 3), none,
        some ⟨"Hello there.".data.length, ("Hello there.".data.take 3).length,
          (("Hello there.".data.take 3).length : ℚ) / ("Hello there.".data.length : ℚ),
          "bart", none⟩⟩, 1) :=
  C3_single_chunk_success (fun t _ => t.take 3) 100 3 "bart" "Hello there.".data
    ⟨130, 30, 4, false⟩ (by decide) (by decide) (by decide)

/-- C4: whenever the orchestrator returns a summary obtained from n leaf
chunks, the metadata of the facade result records chunks_processed as exactly n
when more than one chunk was needed, and omits it otherwise. -/
theorem C4_chunk_count_metadata (b : Backend) (limit d : Nat) (model : String)
    (text : Text) (p : GenerationParameters) (s : Text) (n m : Nat)
    (hne : stripChars text ≠ []) (hp : p.min_length ≤ p.max_length)
    (hok : orchestrate b limit p d text = (.ok (s, n), m)) :
    (summarize_text b limit d model text p).1.metadata =
      some ⟨text.length, s.length, ((s.length : ℚ) / (text.length : ℚ)), model,
        if 1 < n then some n else none⟩ := by
  unfold summarize_text
  rw [if_neg hne, if_neg (Nat.not_lt.mpr hp), hok]

/-- C4 witness: a concrete two-sentence text over the limit is processed in two
chunks and the metadata records chunks_processed as two. -/
theorem C4_chunk_count_metadata_witness :
    (summarize_text (fun t _ => t.take 2) 8 3 "bart" "Aa bb. Cc dd.".data
        ⟨130, 30, 4, false⟩).1.metadata =
      some ⟨"Aa bb. Cc dd.".data.length, "Aa  C".data.length,
        (("Aa  C".data.length : ℚ) / ("Aa bb. Cc dd.".data.length : ℚ)), "bart",
        if 1 < 2 then some 2 else none⟩ :=
  C4_chunk_count_metadata (fun t _ => t.take 2) 8 3 "bart" "Aa bb. Cc dd.".data
    ⟨130, 30, 4, false⟩ "Aa  C".data 2 2 (by decide) (by decide) (by rfl)

/-- C5: switching to an identifier outside the registered model set fails with
UnknownModel and leaves the active model unchanged. -/
theorem C5_switch_unknown (canLoad : String → Bool) (r : ModelRegistry)
    (ident : String) (h : ident ∉ r.models) :
    (switch_model canLoad r ident).1 = .error .UnknownModel ∧
    active_model (switch_model canLoad r ident).2 = active_model r := by
  unfold switch_model
  rw [if_neg h]
  exact ⟨rfl, rfl⟩

/-- C5 witness: a concrete unknown identifier is rejected and the active model
survives. -/
theorem C5_switch_unknown_witness :
    (switch_model (fun _ => true) ⟨["facebook-bart", "t5-small"], "facebook-bart"⟩
        "gpt-9").1 = .error .UnknownModel ∧
    active_model (switch_model (fun _ => true)
        ⟨["facebook-bart", "t5-small"], "facebook-bart"⟩ "gpt-9").2 =
      active_model ⟨["facebook-bart", "t5-small"], "facebook-bart"⟩ :=
  C5_switch_unknown (fun _ => true) ⟨["facebook-bart", "t5-small"], "facebook-bart"⟩
    "gpt-9" (by decide)

/-- C6: for every non-empty text, parameters with min_length above max_length
make the facade fail with the InvalidParameters error and zero backend
invocations. -/
theorem C6_invalid_params (b : Backend) (limit d : Nat) (model : String)
    (text : Text) (p : GenerationParameters)
    (hne : stripChars text ≠ []) (hp : p.max_length < p.min_length) :
    summarize_text b limit d model text p =
      (⟨false, none, some (errorMessage .InvalidParameters), none⟩, 0) := by
  unfold summarize_text
  rw [if_neg hne, if_pos hp]

/-- C6 witness: concrete parameters with min_length above max_length are
rejected before any backend call. -/
theorem C6_invalid_params_witness :
    summarize_text (fun t _ => t.take 3) 100 3 "bart" "Hello.".data
        ⟨30, 130, 4, false⟩ =
      (⟨false, none, some (errorMessage .InvalidParameters), none⟩, 0) :=
  C6_invalid_params (fun t _ => t.take 3) 100 3 "bart" "Hello.".data
    ⟨30, 130, 4, false⟩ (by decide) (by decide)

/-- C7: the metrics computation is total, guards both divisions by zero, and
returns all zeroes on the empty text. -/
theorem C7_metrics_guards (cs : Text) :
    ((calculate_text_metrics cs).word_count = 0 →
      (calculate_text_metrics cs).lexical_diversity = 0) ∧
    ((calculate_text_metrics cs).sentence_count = 0 →
      (calculate_text_metrics cs).avg_sentence_length = 0) ∧
    calculate_text_metrics [] = ⟨0, 0, 0, 0, 0⟩ := by
  refine ⟨?_, ?_, by rfl⟩
  · intro h
    simp only [calculate_text_metrics] at h ⊢
    rw [if_pos h]
  · intro h
    simp only [calculate_text_metrics] at h ⊢
    rw [if_pos h]

/-- C8: keyword extraction returns at most k terms, returns none for k zero,
and its result length is monotone in k. -/
theorem C8_keyword_bounds (stop : List Text) (cs : Text) (k j : Nat) (hkj : k ≤ j) :
    (extract_keywords stop cs k).length ≤ k ∧
    extract_keywords stop cs 0 = [] ∧
    (extract_keywords stop cs k).length ≤ (extract_keywords stop cs j).length := by
  unfold extract_keywords
  refine ⟨?_, rfl, ?_⟩
  · rw [List.length_take]
    exact min_le_left _ _
  · rw [List.length_take, List.length_take]
    exact min_le_min hkj le_rfl

/-- C8 witness: the bounds at a concrete text and concrete cutoffs. -/
theorem C8_keyword_bounds_witness :
    (extract_keywords [] "b a a c b a".data 2).length ≤ 2 ∧
    extract_keywords [] "b a a c b a".data 0 = [] ∧
    (extract_keywords [] "b a a c b a".data 2).length ≤
      (extract_keywords [] "b a a c b a".data 4).length :=
  C8_keyword_bounds [] "b a a c b a".data 2 4 (by decide)

/-- C9: the bounded recursion of the orchestrator fails closed: at recursion
depth zero an oversized text yields TextTooLong, and every failure the
orchestrator can produce at any depth is TextTooLong. -/
theorem C9_depth_bound (b : Backend) (limit : Nat) (p : GenerationParameters)
    (text : Text) (h : limit < text.length) :
    (orchestrate b limit p 0 text).1 = .error .TextTooLong ∧
    ∀ (fuel : Nat) (e : SummError),
      (orchestrate b limit p fuel text).1 = .error e → e = .TextTooLong := by
  constructor
  · simp [orchestrate, Nat.not_le.mpr h]
  · intro fuel e he
    exact orchestrate_error_eq b limit p fuel text e he

/-- C9 witness: a concrete oversized text at depth zero fails with
TextTooLong. -/
theorem C9_depth_bound_witness :
    (orchestrate (fun t _ => t.take 2) 3 ⟨130, 30, 4, false⟩ 0
        "Hello there. Bye.".data).1 = .error .TextTooLong ∧
    ∀ (fuel : Nat) (e : SummError),
      (orchestrate (fun t _ => t.take 2) 3 ⟨130, 30, 4, false⟩ fuel
          "Hello there. Bye.".data).1 = .error e → e = .TextTooLong :=
  C9_depth_bound (fun t _ => t.take 2) 3 ⟨130, 30, 4, false⟩
    "Hello there. Bye.".data (by decide)

/-- C10: the Generate Summary click handler invokes the summarizer exactly when
the entered text is non-empty after stripping, warns otherwise without a call,
and consequently the EmptyInput error surface of the facade is unreachable from
this caller. -/
theorem C10_ui_empty_guard (t : Text) :
    (generateSummaryClick t = .summarizeCall t ↔ stripChars t ≠ []) ∧
    (stripChars t = [] → generateSummaryClick t = .warnEmptyInput) ∧
    (∀ (b : Backend) (limit d : Nat) (model : String) (p : GenerationParameters),
      generateSummaryClick t = .summarizeCall t →
      (summarize_text b limit d model t p).1.error ≠ some (errorMessage .EmptyInput)) := by
  refine ⟨?_, ?_, ?_⟩
  · by_cases hs : stripChars t = [] <;> simp [generateSummaryClick, hs]
  · intro hs
    simp [generateSummaryClick, hs]
  · intro b limit d model p hclick
    have hne : stripChars t ≠ [] := by
      intro hs
      simp [generateSummaryClick, hs] at hclick
    unfold summarize_text
    rw [if_neg hne]
    by_cases hp : p.max_length < p.min_length
    · rw [if_pos hp]
      decide
    · rw [if_neg hp]
      cases hr : orchestrate b limit p d t with
      | mk res calls =>
        cases res with
        | error e =>
            have he : e = .TextTooLong :=
              orchestrate_error_eq b limit p d t e (congrArg Prod.fst hr)
            subst he
            show some (errorMessage .TextTooLong) ≠ some (errorMessage .EmptyInput)
            decide
        | ok v => simp

end TextSummarizer
